import Mathlib

/-!
Shallow embedding of the og-pooling client of this repository
(chia/farmer/og_pooling/pool_worker.py, pool_api_client.py, pool_protocol.py
and chia/util/default_root.py), together with theorems settling the frozen
claims about it.

Conventions of the embedding:
* Python exceptions are modelled with an explicit error type; a function that
  can raise returns an Except value.
* BLS keys, signatures and hashes are opaque data, modelled as naturals; the
  externally supplied cryptographic operations are parameters (a CryptoOps
  record) so that every claim holds for every choice of the external
  primitives.
* Clock readings (time.time()) are supplied as explicit arguments; awaited
  network interactions are supplied as explicit outcome traces, one entry per
  iteration of the corresponding source loop.
-/

namespace ChiaOg

/-- Python exceptions that the translated code can raise. -/
inductive PyErr where
  | typeError (msg : String)
  | keyError (key : String)
  | assertionError
  deriving Repr, DecidableEq

/-- Python values appearing in the argument list of a Python call we model
(only the shapes the source actually passes are needed). -/
inductive PyVal where
  | str (s : String)
  | pynone
  | logger
  deriving Repr, DecidableEq

/-- Insertion into a Python dict keyed by naturals: overwrites the value of an
existing key, otherwise appends. -/
def dictInsert : List (Nat × Nat) → Nat → Nat → List (Nat × Nat)
  | [], k, v => [(k, v)]
  | (k0, v0) :: rest, k, v =>
      if k0 = k then (k, v) :: rest else (k0, v0) :: dictInsert rest k v

/-- Lookup in a Python dict keyed by naturals. -/
def dictFind : List (Nat × Nat) → Nat → Option Nat
  | [], _ => none
  | (k0, v0) :: rest, k => if k0 = k then some v0 else dictFind rest k

/-! ## Pool wire-protocol types (pool_protocol.py) -/

/-- The proof-of-space message fields the worker reads
(harvester_protocol.NewProofOfSpace and the embedded proof). -/
structure ProofOfSpaceMsg where
  plot_identifier : String
  challenge_hash : Nat
  sp_hash : Nat
  signage_point_index : Nat
  proof_size : Nat
  plot_public_key : Nat
  deriving Repr, DecidableEq

/-- PartialPayloadOG from pool_protocol.py: the unsigned content of one
submission.  Opaque byte-level fields are abstracted to naturals. -/
structure PartialPayloadOG where
  id : Nat
  difficulty : Int
  proof_of_space : ProofOfSpaceMsg
  sp_hash : Nat
  end_of_sub_slot : Bool
  total_plots : Nat
  payout_address : String
  deriving Repr, DecidableEq

/-! ## Pool API client (pool_api_client.py) -/

/-- The decoded JSON body of a pool response to a submission
(keys are optional: absent key = none). -/
structure PoolResponse where
  new_difficulty : Option Int
  part_target_time : Option Int
  error_code : Option Int
  error_message : Option String
  deriving Repr, DecidableEq

/-- PoolApiClient: holds the base url and the logger passed at construction. -/
structure PoolApiClient where
  base_url : PyVal
  log : PyVal
  deriving Repr, DecidableEq

/-- PoolApiClient.__init__(self, base_url: str, log: Logger): both parameters
are required and positional, so a call whose argument list does not have
exactly two entries raises TypeError. -/
def poolApiClientInit (args : List PyVal) : Except PyErr PoolApiClient :=
  match args with
  | [u, l] => .ok ⟨u, l⟩
  | _ => .error (.typeError "PoolApiClient.__init__ missing 1 required positional argument: log")

/-- Outcome of one POST attempt inside the submission retry helper. -/
inductive AttemptOutcome where
  | success (body : PoolResponse)
  | badStatus (status : Nat)
  | transportError (e : Nat)
  deriving Repr, DecidableEq

/-- The errors the submission retry helper can raise. -/
inductive PostError where
  | statusError (url : String) (status : Nat)
  | transport (e : Nat)
  | noPartialSubmitted (url : String)
  deriving Repr, DecidableEq

/-- Result of the submission retry helper: a decoded body or a raised error. -/
inductive PostOutcome where
  | returned (body : PoolResponse)
  | raised (e : PostError)
  deriving Repr, DecidableEq

/-- The loop of post_partial.  The trace supplies, for each iteration, the
clock reading of the loop-condition check and the outcome of the POST attempt
the iteration would perform.  A response with a non-success status records a
connection error as the last error and breaks, after which that error is
raised; a transport error is logged, recorded and retried; on the deadline the
last recorded error (or the generic no-submission error) is raised.  none
models a trace too short to decide the call (the loop still running). -/
def postPartialGo (url : String) (ttl : Int) (last_error : Option PostError) :
    List (Int × AttemptOutcome) → Option PostOutcome
  | [] => none
  | (t, a) :: rest =>
    if t < ttl then
      match a with
      | .success body => some (.returned body)
      | .badStatus s => some (.raised (.statusError url s))
      | .transportError e => postPartialGo url ttl (some (.transport e)) rest
    else
      some (.raised (last_error.getD (.noPartialSubmitted url)))

/-- post_partial from pool_api_client.py: the deadline is 23 seconds past the
clock reading taken at entry. -/
def postPartial (url : String) (start : Int) (trace : List (Int × AttemptOutcome)) :
    Option PostOutcome :=
  postPartialGo url (start + 23) none trace

/-- The last transport error recorded along a run of attempts, starting from a
given current value. -/
def lastTransport (dflt : PostError) : List (Int × AttemptOutcome) → PostError
  | [] => dflt
  | (_, AttemptOutcome.transportError e) :: rest => lastTransport (.transport e) rest
  | _ :: rest => lastTransport dflt rest

/-! ## Pool worker state (pool_worker.py) -/

def DEFAULT_POOL_URL : String := "https://pool.sweetchia.com"

def POOL_SUB_SLOT_ITERS : Nat := 37600000000

/-- The mutable fields of PoolWorker, plus the two farmer-owned pool-target
fields the worker writes during the connect transition.  The connected flag is
the presence of pool_client, exactly as in the source. -/
structure WorkerState where
  pool_enabled : Bool
  pool_url : Option String
  pool_payout_address : String
  pool_target : Option (List Nat)
  pool_target_encoded : Option String
  pool_sub_slot_iters : Nat
  iters_limit : Nat
  pool_difficulty : Int
  pool_minimum_difficulty : Int
  pool_part_target_time : Int
  last_part_submit_time : Int
  pool_client : Option PoolApiClient
  total_plots : Nat
  harvester_plots : List (Nat × Nat)
  farmer_pool_target : Option (List Nat)
  farmer_pool_target_encoded : Option String
  deriving Repr, DecidableEq

/-- The property _is_pooling_enabled: pooling enabled in config and a pool url
that is not None. -/
def isPoolingEnabled (st : WorkerState) : Bool :=
  st.pool_enabled && st.pool_url.isSome

/-- The property _is_pool_connected: the pool client reference is set. -/
def isPoolConnected (st : WorkerState) : Bool :=
  st.pool_client.isSome

/-! ## Configuration migration (PoolWorker.__init__, lines 39-54) -/

/-- The og_pooling config section as a partial map: a key can be absent. -/
structure OgPoolingConfig where
  enabled : Option Bool
  pool_url : Option String
  pool_payout_address : Option String
  deriving Repr, DecidableEq

/-- The section the constructor writes when og_pooling is absent.  The source
template has exactly the two keys enabled and pool_url; it does not contain
pool_payout_address. -/
def configTemplate : OgPoolingConfig :=
  { enabled := some true, pool_url := some DEFAULT_POOL_URL, pool_payout_address := none }

/-- The og_pooling section as stored on disk (config.yaml, under farmer) and
as held in the farmer's in-memory config. -/
structure ConfigDocs where
  disk : Option OgPoolingConfig
  mem : Option OgPoolingConfig
  deriving Repr, DecidableEq

/-- The migration step of PoolWorker.__init__: when the in-memory farmer
config lacks the og_pooling key, the template is written into the on-disk
config under the farmer block, saved, and also stored in the in-memory
config; otherwise nothing is touched. -/
def migrateOgConfig (c : ConfigDocs) : ConfigDocs :=
  match c.mem with
  | none => { disk := some configTemplate, mem := some configTemplate }
  | some _ => c

/-- Python str.strip(): leading and trailing whitespace removed. -/
def pyStrip (s : String) : String :=
  ⟨((s.data.dropWhile Char.isWhitespace).reverse.dropWhile Char.isWhitespace).reverse⟩

/-- The reads PoolWorker.__init__ performs on the (post-migration) section:
enabled defaults to True, pool_url to the default url, and the payout address
is read with default empty string and stripped. -/
def readOgConfig (c : OgPoolingConfig) : Bool × String × String :=
  (c.enabled.getD true, c.pool_url.getD DEFAULT_POOL_URL,
   pyStrip (c.pool_payout_address.getD ""))

/-! ## Connecting to the pool (PoolWorker._connect_to_pool, lines 84-121) -/

/-- The decoded pool_info JSON body (target_puzzle_hash already hex-decoded
to its bytes). -/
structure PoolInfo where
  name : String
  minimum_difficulty : Int
  part_target_time : Int
  target_puzzle_hash : List Nat
  deriving Repr, DecidableEq

/-- One iteration of the pool-info fetch loop: the shutdown flag observed by
the loop condition and the outcome of the awaited get_pool_info call
(a raised transport error or a decoded body). -/
structure ConnectStep where
  shut : Bool
  fetch : Except Nat PoolInfo
  deriving Repr

/-- Adoption of the fetched pool info (lines 101-121): minimum difficulty,
current difficulty initialized to the minimum, target time, target puzzle
hash (asserted to be 32 bytes) and its encoding; the farmer's pool-target
fields are updated, and the client reference is installed.  The source guards
the farmer update with an identity comparison (is not) between freshly
constructed objects, which is always true, so the update always runs. -/
def adoptPoolInfo (st : WorkerState) (client : PoolApiClient) (info : PoolInfo)
    (addr_pref : String) (encode_ph : List Nat → String → String) :
    Except PyErr WorkerState :=
  let st1 := { st with
    pool_minimum_difficulty := info.minimum_difficulty,
    pool_difficulty := info.minimum_difficulty,
    pool_part_target_time := info.part_target_time,
    pool_target := some info.target_puzzle_hash }
  if info.target_puzzle_hash.length = 32 then
    let enc := encode_ph info.target_puzzle_hash addr_pref
    .ok { st1 with
      pool_target_encoded := some enc,
      farmer_pool_target := some info.target_puzzle_hash,
      farmer_pool_target_encoded := some enc,
      pool_client := some client }
  else .error .assertionError

/-- The fetch loop of _connect_to_pool: while not shut down and without pool
info, try the fetch; a failure is logged and followed by a 5 second sleep and
another iteration.  Leaving the loop on shutdown returns with the state
untouched; leaving it with pool info proceeds to adopt it.  none models a
trace too short to decide the run. -/
def connectLoop (st : WorkerState) (client : PoolApiClient)
    (addr_pref : String) (encode_ph : List Nat → String → String) :
    List ConnectStep → Option (Except PyErr WorkerState)
  | [] => none
  | step :: rest =>
    if step.shut then some (.ok st)
    else
      match step.fetch with
      | .ok info => some (adoptPoolInfo st client info addr_pref encode_ph)
      | .error _ => connectLoop st client addr_pref encode_ph rest

/-- _connect_to_pool: first the client is constructed; the source passes only
the pool url to PoolApiClient, whose initializer requires base_url and log. -/
def connectToPool (st : WorkerState) (addr_pref : String)
    (encode_ph : List Nat → String → String) (steps : List ConnectStep) :
    Option (Except PyErr WorkerState) :=
  match poolApiClientInit [(st.pool_url.map PyVal.str).getD PyVal.pynone] with
  | .error e => some (.error e)
  | .ok client => connectLoop st client addr_pref encode_ph steps

/-- start(): runs the connect sequence when pooling is enabled (the
difficulty-adjustment task is launched afterwards); otherwise only logs. -/
def startWorker (st : WorkerState) (addr_pref : String)
    (encode_ph : List Nat → String → String) (steps : List ConnectStep) :
    Option (Except PyErr WorkerState) :=
  if isPoolingEnabled st then connectToPool st addr_pref encode_ph steps
  else some (.ok st)

/-! ## Difficulty adjustment (PoolWorker, lines 123-146) -/

/-- One adjustment tick of the background loop (the body under the 60-second
gate): computes the time elapsed since the last submission, skips when it is
below the target time or when adjustment is disabled (target time below 1),
otherwise lowers the difficulty by two per missed target interval, floored at
the pool minimum; an unchanged value is left alone. -/
def adjustDifficultyTick (st : WorkerState) (now : Int) : WorkerState :=
  let elapsed := now - st.last_part_submit_time
  if elapsed < st.pool_part_target_time ∨ st.pool_part_target_time < 1 then st
  else
    let missing := Int.fdiv elapsed st.pool_part_target_time
    let new_difficulty := max (st.pool_difficulty - missing * 2) st.pool_minimum_difficulty
    if new_difficulty = st.pool_difficulty then st
    else { st with pool_difficulty := new_difficulty }

/-! ## Per-signage-point and per-report hooks (lines 160-170) -/

/-- The fields of farmer_protocol.NewSignagePoint the worker reads. -/
structure NewSignagePointMsg where
  difficulty : Int
  sub_slot_iters : Nat
  deriving Repr, DecidableEq

/-- new_signage_point: while connected, snapshots the total plot count from
the harvester map, empties the map, and returns the pool difficulty and the
fixed pool sub-slot iterations; while disconnected, passes the signage
point's own values through. -/
def newSignagePoint (st : WorkerState) (sp : NewSignagePointMsg) :
    WorkerState × (Int × Nat) :=
  if isPoolConnected st then
    ({ st with
        total_plots := (st.harvester_plots.map Prod.snd).sum,
        harvester_plots := [] },
     (st.pool_difficulty, st.pool_sub_slot_iters))
  else (st, (sp.difficulty, sp.sub_slot_iters))

/-- farming_info: while connected, records the reported plot count under the
reporting peer's node id, overwriting a prior entry; a no-op otherwise. -/
def farmingInfo (st : WorkerState) (peer_node_id : Nat) (report_total_plots : Nat) :
    WorkerState :=
  if isPoolConnected st then
    { st with harvester_plots := dictInsert st.harvester_plots peer_node_id report_total_plots }
  else st

/-! ## Proof-of-space submission pipeline (PoolWorker.new_proof_of_space,
lines 184-281) -/

/-- The farmer-owned read-only data the pipeline consults. -/
structure FarmerEnv where
  node_id : Nat
  farmer_target_encoded : String
  private_keys : List Nat
  pool_sks_map : List (Nat × Nat)
  deriving Repr, DecidableEq

/-- The externally supplied cryptographic primitives (blspy and the payload
hash).  The pipeline is parametric in them. -/
structure CryptoOps where
  get_g1 : Nat → Nat
  generate_plot_public_key : Nat → Nat → Nat
  sign_prepend : Nat → Nat → Nat → Nat
  sign : Nat → Nat → Nat
  aggregate : List Nat → Nat
  verify : Nat → Nat → Nat → Bool
  payload_hash : PartialPayloadOG → Nat

/-- The harvester's reply to the signature request: either a message of an
unexpected type, or a RespondSignatures with its local and farmer public keys
and its list of (hash, signature) pairs. -/
inductive SignResponseM where
  | invalid
  | valid (local_pk : Nat) (farmer_pk : Nat) (message_signatures : List (Nat × Nat))
  deriving Repr, DecidableEq

/-- The source's for-loop over the farmer's private keys (lines 236-243).  A
matching key derives the aggregate plot key, asserts it equals the proof's
plot key, signs, aggregates with the harvester share, and asserts the
aggregate verifies; a later matching key overwrites the variable, so the last
match wins. -/
def plotSignatureLoop (cr : CryptoOps) (keys : List Nat) (farmer_pk local_pk : Nat)
    (proof_plot_pk : Nat) (m : Nat) (harvester_sig : Nat) : Except PyErr (Option Nat) :=
  match keys with
  | [] => .ok none
  | sk :: rest =>
    if cr.get_g1 sk = farmer_pk then
      let agg_pk := cr.generate_plot_public_key local_pk (cr.get_g1 sk)
      if agg_pk = proof_plot_pk then
        let sig_farmer := cr.sign_prepend sk m agg_pk
        let plot_sig := cr.aggregate [sig_farmer, harvester_sig]
        if cr.verify agg_pk m plot_sig then
          match plotSignatureLoop cr rest farmer_pk local_pk proof_plot_pk m harvester_sig with
          | .ok none => .ok (some plot_sig)
          | .ok (some later) => .ok (some later)
          | .error e => .error e
        else .error .assertionError
      else .error .assertionError
    else plotSignatureLoop cr rest farmer_pk local_pk proof_plot_pk m harvester_sig

/-- Response handling (lines 261-281): a present new_difficulty differing
from the current one is adopted as is; a present non-negative target time
differing from the current one is adopted; error code 5 is logged at info
level, any other code is logged as an error together with the error message
(whose absence raises KeyError). -/
def handleResponse (st : WorkerState) (resp : PoolResponse) : Except PyErr WorkerState :=
  let st1 :=
    match resp.new_difficulty with
    | some nd => if nd ≠ st.pool_difficulty then { st with pool_difficulty := nd } else st
    | none => st
  let st2 :=
    match resp.part_target_time with
    | some tt =>
        if 0 ≤ tt ∧ tt ≠ st1.pool_part_target_time then
          { st1 with pool_part_target_time := tt }
        else st1
    | none => st1
  match resp.error_code with
  | none => .ok st2
  | some c =>
    if c = 5 then .ok st2
    else
      match resp.error_message with
      | none => .error (.keyError "error_message")
      | some _ => .ok st2

/-- Result of one run of the pipeline: the state afterwards and whether the
pool was contacted. -/
structure NewProofOfSpaceResult where
  state : WorkerState
  submitted : Bool
  deriving Repr, DecidableEq

/-- Payload construction (lines 207-218): id is the farmer's node id, the
difficulty is the current pool difficulty, end_of_sub_slot holds exactly when
the signage point index is zero, the plot count is the last snapshot, and the
payout address falls back to the farmer's own target when the configured one
is empty. -/
def buildPayload (st : WorkerState) (fe : FarmerEnv) (nps : ProofOfSpaceMsg) :
    PartialPayloadOG :=
  { id := fe.node_id,
    difficulty := st.pool_difficulty,
    proof_of_space := nps,
    sp_hash := nps.sp_hash,
    end_of_sub_slot := nps.signage_point_index = 0,
    total_plots := st.total_plots,
    payout_address :=
      if st.pool_payout_address ≠ "" then st.pool_payout_address
      else fe.farmer_target_encoded }

/-- new_proof_of_space.  required_iters is the value of the external
calculate_iterations_quality formula; sign_response is the awaited harvester
reply, submit_result the awaited outcome of submit_partial (a raised
transport error or a decoded body); now is the clock reading taken right
before the submission.  Every early return of the source is an .ok with the
state reached so far; every uncaught raise is an .error. -/
def newProofOfSpace (st : WorkerState) (fe : FarmerEnv) (cr : CryptoOps)
    (nps : ProofOfSpaceMsg) (pool_public_key : Nat) (required_iters : Nat)
    (sign_response : SignResponseM) (submit_result : Except Nat PoolResponse)
    (now : Int) : Except PyErr NewProofOfSpaceResult :=
  if ¬ isPoolConnected st then .ok ⟨st, false⟩
  else if st.iters_limit ≤ required_iters then .ok ⟨st, false⟩
  else
    let m := cr.payload_hash (buildPayload st fe nps)
    match sign_response with
    | .invalid => .ok ⟨st, false⟩
    | .valid local_pk farmer_pk msgs =>
      if msgs.length ≠ 1 then .error .assertionError
      else
        let harvester_sig := (msgs.headD (0, 0)).2
        match plotSignatureLoop cr fe.private_keys farmer_pk local_pk
            nps.plot_public_key m harvester_sig with
        | .error e => .error e
        | .ok plot_signature =>
          match dictFind fe.pool_sks_map pool_public_key with
          | none => .error (.keyError "pool_sks_map")
          | some pool_sk =>
            let authentication_signature := cr.sign pool_sk m
            match plot_signature with
            | none => .error .assertionError
            | some plot_sig =>
              let _agg_sig := cr.aggregate [plot_sig, authentication_signature]
              let st := { st with last_part_submit_time := now }
              match submit_result with
              | .error _ => .ok ⟨st, true⟩
              | .ok resp =>
                match handleResponse st resp with
                | .error e => .error e
                | .ok st2 => .ok ⟨st2, true⟩

/-! ## Root path resolution (chia/util/default_root.py) -/

/-- The decoded config_root.json object: each of the two keys may be absent. -/
structure RootOverrides where
  default_root_path : Option String
  default_keys_root_path : Option String
  deriving Repr, DecidableEq

/-- The per-key override check: a truthy string of length above one replaces
the default with its home-expanded, resolved form; otherwise the default is
kept. -/
def applyRootOverride (norm : String → String) (dflt v : String) : String :=
  if v ≠ "" ∧ 1 < v.length then norm v else dflt

/-- The module body of default_root.py, given the already-resolved
environment defaults, the normalization (expanduser plus resolve) and the
override file content (none when config_root.json does not exist).  The two
keys are read by subscript, so an absent key raises KeyError. -/
def resolveRootPaths (norm : String → String) (droot dkeys : String) :
    Option RootOverrides → Except PyErr (String × String)
  | none => .ok (droot, dkeys)
  | some ov =>
    match ov.default_root_path with
    | none => .error (.keyError "DEFAULT_ROOT_PATH")
    | some root =>
      let droot := applyRootOverride norm droot root
      match ov.default_keys_root_path with
      | none => .error (.keyError "DEFAULT_KEYS_ROOT_PATH")
      | some keys_root => .ok (droot, applyRootOverride norm dkeys keys_root)

/-! ## Concrete sample values used by witnesses and counterexamples -/

def sampleClient : PoolApiClient :=
  { base_url := .str DEFAULT_POOL_URL, log := .logger }

/-- A worker state as reached after a successful connect: the client is set
and the constants have their construction-time values. -/
def sampleConnectedState : WorkerState :=
  { pool_enabled := true,
    pool_url := some DEFAULT_POOL_URL,
    pool_payout_address := "",
    pool_target := some (List.replicate 32 0),
    pool_target_encoded := some "xch1pool",
    pool_sub_slot_iters := POOL_SUB_SLOT_ITERS,
    iters_limit := 587500000,
    pool_difficulty := 1,
    pool_minimum_difficulty := 1,
    pool_part_target_time := 300,
    last_part_submit_time := 0,
    pool_client := some sampleClient,
    total_plots := 0,
    harvester_plots := [],
    farmer_pool_target := some (List.replicate 32 0),
    farmer_pool_target_encoded := some "xch1pool" }

def sampleCrypto : CryptoOps :=
  { get_g1 := fun _ => 0,
    generate_plot_public_key := fun _ _ => 0,
    sign_prepend := fun _ _ _ => 0,
    sign := fun _ _ => 0,
    aggregate := fun _ => 0,
    verify := fun _ _ _ => true,
    payload_hash := fun _ => 0 }

def sampleFarmerEnv : FarmerEnv :=
  { node_id := 0,
    farmer_target_encoded := "xch1farmer",
    private_keys := [0],
    pool_sks_map := [(0, 0)] }

def sampleProofMsg : ProofOfSpaceMsg :=
  { plot_identifier := "plot-1",
    challenge_hash := 0,
    sp_hash := 0,
    signage_point_index := 0,
    proof_size := 32,
    plot_public_key := 0 }

def sampleDisconnectedState : WorkerState :=
  { sampleConnectedState with pool_client := none }

/-- A trace of attempts failing at the transport level, with the deadline
observed at second 23. -/
def c4SampleTrace : List (Int × AttemptOutcome) :=
  [(1, AttemptOutcome.transportError 7), (9, AttemptOutcome.transportError 8),
   (23, AttemptOutcome.transportError 9)]

/-- The state of the spec's worked difficulty-adjustment example. -/
def c3SampleState : WorkerState :=
  { sampleConnectedState with
      pool_difficulty := 10,
      pool_minimum_difficulty := 1,
      pool_part_target_time := 60,
      last_part_submit_time := 0 }

/-! ## Theorems for the claims -/

/-- Claim C1 (supporting theorem for the code bug): every call of
_connect_to_pool raises TypeError at the client construction, whatever the
state, the encoding, and the fetch/shutdown trace (even one whose first fetch
succeeds), because the source passes only the pool url to a PoolApiClient
initializer that requires base_url and log.  The connected state is never
reached and the pool parameters are never adopted. -/
theorem c1_connect_raises_type_error (st : WorkerState) (addr_pref : String)
    (encode_ph : List Nat → String → String) (steps : List ConnectStep) :
    connectToPool st addr_pref encode_ph steps =
      some (.error (.typeError
        "PoolApiClient.__init__ missing 1 required positional argument: log")) := by
  cases h : st.pool_url <;> rfl

/-- Claim C3: on an adjustment tick with elapsed at least the target time and
the target time at least 1, the new difficulty is the maximum of
(difficulty - 2 * floor(elapsed / target)) and the pool minimum; hence the
computed difficulty is never below the pool minimum; and the spec's concrete
instance (difficulty 10, minimum 1, target 60, elapsed 185) yields 4. -/
theorem c3_difficulty_adjustment (st : WorkerState) (now : Int)
    (ht : 1 ≤ st.pool_part_target_time)
    (he : st.pool_part_target_time ≤ now - st.last_part_submit_time) :
    (adjustDifficultyTick st now).pool_difficulty =
      max (st.pool_difficulty -
            Int.fdiv (now - st.last_part_submit_time) st.pool_part_target_time * 2)
        st.pool_minimum_difficulty ∧
    st.pool_minimum_difficulty ≤ (adjustDifficultyTick st now).pool_difficulty ∧
    (adjustDifficultyTick c3SampleState 185).pool_difficulty = 4 := by
  have hcond : ¬ (now - st.last_part_submit_time < st.pool_part_target_time ∨
      st.pool_part_target_time < 1) := by
    push_neg
    exact ⟨he, ht⟩
  have hmain : (adjustDifficultyTick st now).pool_difficulty =
      max (st.pool_difficulty -
            Int.fdiv (now - st.last_part_submit_time) st.pool_part_target_time * 2)
        st.pool_minimum_difficulty := by
    unfold adjustDifficultyTick
    rw [if_neg hcond]
    by_cases heq :
        max (st.pool_difficulty -
              Int.fdiv (now - st.last_part_submit_time) st.pool_part_target_time * 2)
          st.pool_minimum_difficulty = st.pool_difficulty
    · rw [if_pos heq]
      exact heq.symm
    · rw [if_neg heq]
  refine ⟨hmain, ?_, by decide⟩
  rw [hmain]
  exact le_max_right _ _

/-- Claim C3 witness: the theorem applied at the spec's concrete instance. -/
theorem c3_difficulty_adjustment_witness :
    (adjustDifficultyTick c3SampleState 185).pool_difficulty =
      max (c3SampleState.pool_difficulty -
            Int.fdiv (185 - c3SampleState.last_part_submit_time)
              c3SampleState.pool_part_target_time * 2)
        c3SampleState.pool_minimum_difficulty ∧
    c3SampleState.pool_minimum_difficulty ≤
      (adjustDifficultyTick c3SampleState 185).pool_difficulty ∧
    (adjustDifficultyTick c3SampleState 185).pool_difficulty = 4 :=
  c3_difficulty_adjustment c3SampleState 185 (by decide) (by decide)

/-- Claim C5: a POST attempt answered with a non-success HTTP status inside
the deadline makes post_partial raise immediately a connection error carrying
the url and the status, whatever attempts would have followed. -/
theorem c5_nonsuccess_short_circuit (url : String) (start t : Int) (s : Nat)
    (rest : List (Int × AttemptOutcome)) (h : t < start + 23) :
    postPartial url start ((t, AttemptOutcome.badStatus s) :: rest) =
      some (.raised (.statusError url s)) := by
  simp [postPartial, postPartialGo, h]

/-- Claim C5 witness: a first-attempt status 500 at time 0 raises at once. -/
theorem c5_nonsuccess_short_circuit_witness :
    postPartial "https://pool.sweetchia.com/og/partial" 0
        [(0, AttemptOutcome.badStatus 500), (1, AttemptOutcome.success ⟨none, none, none, none⟩)] =
      some (.raised (.statusError "https://pool.sweetchia.com/og/partial" 500)) :=
  c5_nonsuccess_short_circuit "https://pool.sweetchia.com/og/partial" 0 0 500
    [(1, AttemptOutcome.success ⟨none, none, none, none⟩)] (by decide)

/-- Claim C6: while connected, a proof whose required iterations reach the
iterations ceiling (equality included) is rejected before any payload is
built: the state is returned unchanged and the pool is not contacted. -/
theorem c6_eligibility_boundary (st : WorkerState) (fe : FarmerEnv) (cr : CryptoOps)
    (nps : ProofOfSpaceMsg) (ppk ri : Nat) (sr : SignResponseM)
    (sub : Except Nat PoolResponse) (now : Int)
    (hc : isPoolConnected st = true) (hge : st.iters_limit ≤ ri) :
    newProofOfSpace st fe cr nps ppk ri sr sub now = .ok ⟨st, false⟩ := by
  simp [newProofOfSpace, hc, hge]

/-- Claim C6 witness: the exact-equality case, required iterations equal to
the ceiling computed at construction. -/
theorem c6_eligibility_boundary_witness :
    newProofOfSpace sampleConnectedState sampleFarmerEnv sampleCrypto sampleProofMsg
        0 587500000 SignResponseM.invalid (.ok ⟨none, none, none, none⟩) 0 =
      .ok ⟨sampleConnectedState, false⟩ :=
  c6_eligibility_boundary sampleConnectedState sampleFarmerEnv sampleCrypto
    sampleProofMsg 0 587500000 SignResponseM.invalid (.ok ⟨none, none, none, none⟩) 0
    (by decide) (by decide)

/-- Claim C8 counterexample: the section the constructor injects is not the
three-key section of the claim; the written template has no
pool_payout_address key at all. -/
theorem c8_counterexample :
    (migrateOgConfig { disk := none, mem := none }).mem ≠
      some { enabled := some true, pool_url := some DEFAULT_POOL_URL,
             pool_payout_address := some "" } := by
  decide

/-- Claim C8 as amended: a configuration lacking og_pooling gets exactly the
two-key section (enabled true, the default pool url) written to disk and to
the in-memory config; a configuration already carrying the key is left
untouched, so the migration is idempotent; and reading the injected section
yields an empty payout address through the read-time default. -/
theorem c8_config_migration (d : Option OgPoolingConfig) (s : OgPoolingConfig) :
    migrateOgConfig { disk := d, mem := none } =
      { disk := some configTemplate, mem := some configTemplate } ∧
    migrateOgConfig { disk := d, mem := some s } = { disk := d, mem := some s } ∧
    configTemplate.pool_payout_address = none ∧
    readOgConfig configTemplate = (true, DEFAULT_POOL_URL, "") :=
  ⟨rfl, rfl, rfl, rfl⟩

/-- Claim C9 counterexample: an override file carrying only DEFAULT_ROOT_PATH
does not leave the keys default untouched; the subscript read of the absent
key raises KeyError, so no pair of paths is produced at all. -/
theorem c9_counterexample :
    resolveRootPaths id "/a" "/b"
        (some { default_root_path := some "/xy", default_keys_root_path := none }) =
      .error (.keyError "DEFAULT_KEYS_ROOT_PATH") ∧
    resolveRootPaths id "/a" "/b"
        (some { default_root_path := some "/xy", default_keys_root_path := none }) ≠
      .ok ("/xy", "/b") :=
  ⟨rfl, fun h => Except.noConfusion h⟩

/-- Claim C9 as amended: without an override file the environment defaults
stand; with an override file both keys must be present (an absent key raises
KeyError); a present value longer than one character replaces the default
with its normalized form, and a present value of length at most one leaves
the default untouched. -/
theorem c9_root_overrides (norm : String → String) (droot dkeys r k : String)
    (hr : 1 < r.length) (hk : k.length ≤ 1) :
    resolveRootPaths norm droot dkeys none = .ok (droot, dkeys) ∧
    resolveRootPaths norm droot dkeys
        (some { default_root_path := some r, default_keys_root_path := some k }) =
      .ok (norm r, dkeys) ∧
    resolveRootPaths norm droot dkeys
        (some { default_root_path := some r, default_keys_root_path := none }) =
      .error (.keyError "DEFAULT_KEYS_ROOT_PATH") ∧
    resolveRootPaths norm droot dkeys
        (some { default_root_path := none, default_keys_root_path := some k }) =
      .error (.keyError "DEFAULT_ROOT_PATH") := by
  have hrne : r ≠ "" := by
    intro h
    rw [h] at hr
    simp at hr
  have happ : applyRootOverride norm droot r = norm r := by
    simp [applyRootOverride, hrne, hr]
  have hkapp : applyRootOverride norm dkeys k = dkeys := by
    rw [applyRootOverride, if_neg]
    rintro ⟨-, h2⟩
    exact absurd h2 (not_lt.mpr hk)
  refine ⟨rfl, ?_, ?_, rfl⟩
  · simp [resolveRootPaths, happ, hkapp]
  · simp [resolveRootPaths]

/-- Claim C9 witness: the amended behavior at a concrete override file with a
long root value and a one-character keys value. -/
theorem c9_root_overrides_witness :
    resolveRootPaths id "/a" "/b" none = .ok ("/a", "/b") ∧
    resolveRootPaths id "/a" "/b"
        (some { default_root_path := some "/xy", default_keys_root_path := some "k" }) =
      .ok (id "/xy", "/b") ∧
    resolveRootPaths id "/a" "/b"
        (some { default_root_path := some "/xy", default_keys_root_path := none }) =
      .error (.keyError "DEFAULT_KEYS_ROOT_PATH") ∧
    resolveRootPaths id "/a" "/b"
        (some { default_root_path := none, default_keys_root_path := some "k" }) =
      .error (.keyError "DEFAULT_ROOT_PATH") :=
  c9_root_overrides id "/a" "/b" "/xy" "k" (by decide) (by decide)

/-- Claim C10: the response handler adopts a differing new_difficulty from a
successful submission response as is, with no floor at the pool minimum: a
value below the minimum leaves the worker's difficulty below the minimum. -/
theorem c10_response_handler_no_floor (st : WorkerState) (v : Int)
    (hne : v ≠ st.pool_difficulty) (hlt : v < st.pool_minimum_difficulty) :
    handleResponse st { new_difficulty := some v, part_target_time := none,
                        error_code := none, error_message := none } =
      .ok { st with pool_difficulty := v } ∧
    ({ st with pool_difficulty := v } : WorkerState).pool_difficulty <
      ({ st with pool_difficulty := v } : WorkerState).pool_minimum_difficulty := by
  constructor
  · simp [handleResponse, hne]
  · simpa using hlt

/-- Claim C10 witness: minimum 5, current difficulty 3, pool pushes 1. -/
theorem c10_response_handler_no_floor_witness :
    handleResponse { sampleConnectedState with pool_difficulty := 3, pool_minimum_difficulty := 5 }
        { new_difficulty := some 1, part_target_time := none,
          error_code := none, error_message := none } =
      .ok { sampleConnectedState with pool_difficulty := 1, pool_minimum_difficulty := 5 } ∧
    ({ { sampleConnectedState with pool_difficulty := 3, pool_minimum_difficulty := 5 } with
        pool_difficulty := 1 } : WorkerState).pool_difficulty <
      ({ { sampleConnectedState with pool_difficulty := 3, pool_minimum_difficulty := 5 } with
          pool_difficulty := 1 } : WorkerState).pool_minimum_difficulty :=
  c10_response_handler_no_floor
    { sampleConnectedState with pool_difficulty := 3, pool_minimum_difficulty := 5 } 1
    (by decide) (by decide)

/-- Claim C7: while connected, new_signage_point snapshots the plot total as
the sum of the recorded harvester counts, empties the map, and returns the
pool difficulty together with the fixed 37600000000 sub-slot iterations,
ignoring the signage point's own values; while disconnected it passes the
input's own values through; and after reports of 100 and 150 plots from two
peers the snapshot is 250 with the map emptied. -/
theorem c7_signage_point_override (st : WorkerState) (sp : NewSignagePointMsg)
    (hc : isPoolConnected st = true)
    (hs : st.pool_sub_slot_iters = POOL_SUB_SLOT_ITERS) :
    newSignagePoint st sp =
      ({ st with total_plots := (st.harvester_plots.map Prod.snd).sum,
                 harvester_plots := [] },
       (st.pool_difficulty, 37600000000)) ∧
    (∀ st2 sp2, st2.pool_client = none →
        newSignagePoint st2 sp2 = (st2, (sp2.difficulty, sp2.sub_slot_iters))) ∧
    (newSignagePoint (farmingInfo (farmingInfo sampleConnectedState 1 100) 2 150) sp).1.total_plots
      = 250 ∧
    (newSignagePoint (farmingInfo (farmingInfo sampleConnectedState 1 100) 2 150) sp).1.harvester_plots
      = [] := by
  refine ⟨?_, ?_, ?_, ?_⟩
  · have hs37 : st.pool_sub_slot_iters = 37600000000 := hs
    simp [newSignagePoint, hc, hs37]
  · intro st2 sp2 h2
    simp [newSignagePoint, isPoolConnected, h2]
  · rfl
  · rfl

/-- Claim C7 witness: the theorem at a connected state and a signage point
declaring difficulty 55 and 66 sub-slot iterations. -/
theorem c7_signage_point_override_witness :
    newSignagePoint sampleConnectedState ⟨55, 66⟩ =
      ({ sampleConnectedState with
           total_plots := (sampleConnectedState.harvester_plots.map Prod.snd).sum,
           harvester_plots := [] },
       (sampleConnectedState.pool_difficulty, 37600000000)) ∧
    newSignagePoint sampleDisconnectedState ⟨55, 66⟩ =
      (sampleDisconnectedState, (55, 66)) ∧
    (newSignagePoint (farmingInfo (farmingInfo sampleConnectedState 1 100) 2 150)
        ⟨55, 66⟩).1.total_plots = 250 ∧
    (newSignagePoint (farmingInfo (farmingInfo sampleConnectedState 1 100) 2 150)
        ⟨55, 66⟩).1.harvester_plots = [] := by
  have h := c7_signage_point_override sampleConnectedState ⟨55, 66⟩ (by decide) rfl
  exact ⟨h.1, h.2.1 sampleDisconnectedState ⟨55, 66⟩ rfl, h.2.2.1, h.2.2.2⟩

/-- Helper for claim C4: when every attempt of the trace yields a transport
error and the trace reaches the deadline, the retry loop raises the last
transport error recorded among the attempts run before the deadline (the
starting accumulator when none ran). -/
theorem postPartialGo_all_transport (url : String) (ttl : Int)
    (trace : List (Int × AttemptOutcome)) :
    ∀ acc : Option PostError,
      (∀ p ∈ trace, ∃ e, p.2 = AttemptOutcome.transportError e) →
      (∃ p ∈ trace, ttl ≤ p.1) →
      postPartialGo url ttl acc trace =
        some (.raised (lastTransport (acc.getD (.noPartialSubmitted url))
          (trace.takeWhile fun p => decide (p.1 < ttl)))) := by
  induction trace with
  | nil =>
    intro acc h1 h2
    simp at h2
  | cons hd tl ih =>
    intro acc h1 h2
    obtain ⟨t, a⟩ := hd
    by_cases hlt : t < ttl
    · obtain ⟨e, he⟩ := h1 (t, a) (List.mem_cons_self _ _)
      simp only at he
      subst he
      have h2tl : ∃ p ∈ tl, ttl ≤ p.1 := by
        obtain ⟨p, hp, hle⟩ := h2
        rcases List.mem_cons.mp hp with h | h
        · rw [h] at hle
          exact absurd hle (not_le.mpr hlt)
        · exact ⟨p, h, hle⟩
      have step : postPartialGo url ttl acc ((t, AttemptOutcome.transportError e) :: tl) =
          postPartialGo url ttl (some (.transport e)) tl := by
        simp [postPartialGo, hlt]
      rw [step, ih (some (.transport e)) (fun p hp => h1 p (List.mem_cons_of_mem _ hp)) h2tl]
      simp [List.takeWhile_cons, hlt, lastTransport]
    · simp [postPartialGo, hlt, List.takeWhile_cons, lastTransport]

/-- Claim C4: when every attempt fails at the transport level and the clock
reaches the 23-second deadline measured from the start of the call,
post_partial raises rather than hangs, the raised error being the last
transport error recorded before the deadline; when no attempt ran before the
deadline, it raises the generic no-submission connection error. -/
theorem c4_retry_termination (url : String) (start : Int)
    (trace : List (Int × AttemptOutcome))
    (h1 : ∀ p ∈ trace, ∃ e, p.2 = AttemptOutcome.transportError e)
    (h2 : ∃ p ∈ trace, start + 23 ≤ p.1) :
    postPartial url start trace =
      some (.raised (lastTransport (.noPartialSubmitted url)
        (trace.takeWhile fun p => decide (p.1 < start + 23)))) ∧
    ((trace.takeWhile fun p => decide (p.1 < start + 23)) = [] →
      postPartial url start trace = some (.raised (.noPartialSubmitted url))) := by
  have h := postPartialGo_all_transport url (start + 23) trace none h1 h2
  have hmain : postPartial url start trace =
      some (.raised (lastTransport (.noPartialSubmitted url)
        (trace.takeWhile fun p => decide (p.1 < start + 23)))) := h
  refine ⟨hmain, fun hemp => ?_⟩
  rw [hmain, hemp]
  rfl

/-- Claim C4 witness: two transport errors at seconds 1 and 9, the deadline
observed at second 23; the raised error is the second transport error. -/
theorem c4_retry_termination_witness :
    postPartial "https://pool.sweetchia.com/og/partial" 0 c4SampleTrace =
      some (.raised (lastTransport (.noPartialSubmitted "https://pool.sweetchia.com/og/partial")
        (c4SampleTrace.takeWhile fun p => decide (p.1 < 0 + 23)))) ∧
    ((c4SampleTrace.takeWhile fun p => decide (p.1 < 0 + 23)) = [] →
      postPartial "https://pool.sweetchia.com/og/partial" 0 c4SampleTrace =
        some (.raised (.noPartialSubmitted "https://pool.sweetchia.com/og/partial"))) :=
  c4_retry_termination "https://pool.sweetchia.com/og/partial" 0 c4SampleTrace
    (by
      intro p hp
      rw [c4SampleTrace] at hp
      rcases List.mem_cons.mp hp with h | hp
      · exact ⟨7, by rw [h]⟩
      rcases List.mem_cons.mp hp with h | hp
      · exact ⟨8, by rw [h]⟩
      rcases List.mem_cons.mp hp with h | hp
      · exact ⟨9, by rw [h]⟩
      · simp at hp)
    ⟨(23, AttemptOutcome.transportError 9), by rw [c4SampleTrace]; simp, by decide⟩

/-- Helper for claim C2: once the pipeline passes the connectivity and
eligibility gates, receives a well-typed harvester response carrying exactly
one signature, finds a plot signature through the key loop, and finds the
pool secret key, the call reduces to the submission and the response
handling, with the submission timestamp recorded first. -/
theorem newProofOfSpace_reaches_submit
    (st : WorkerState) (fe : FarmerEnv) (cr : CryptoOps) (nps : ProofOfSpaceMsg)
    (ppk ri lpk fpk mh hsig : Nat)
    (sub : Except Nat PoolResponse) (now : Int)
    (hc : isPoolConnected st = true)
    (hri : ri < st.iters_limit)
    (hloop : ∀ m, ∃ s, plotSignatureLoop cr fe.private_keys fpk lpk
        nps.plot_public_key m hsig = .ok (some s))
    (hkey : (dictFind fe.pool_sks_map ppk).isSome = true) :
    newProofOfSpace st fe cr nps ppk ri (.valid lpk fpk [(mh, hsig)]) sub now =
      match sub with
      | .error _ => .ok ⟨{ st with last_part_submit_time := now }, true⟩
      | .ok resp =>
        match handleResponse { st with last_part_submit_time := now } resp with
        | .error e => .error e
        | .ok st2 => .ok ⟨st2, true⟩ := by
  obtain ⟨s, hs⟩ := hloop (cr.payload_hash (buildPayload st fe nps))
  obtain ⟨psk, hpsk⟩ := Option.isSome_iff_exists.mp hkey
  have hnle : ¬ st.iters_limit ≤ ri := not_le.mpr hri
  simp only [newProofOfSpace, hc, hnle, not_true, if_false, if_neg, ite_false]
  simp [hc, hnle, hs, hpsk]

/-- Claim C2 counterexample: an invocation of the pipeline from which an
exception does propagate to the caller: a connected state, an eligible proof,
and a well-typed harvester response carrying no signature make the source's
assertion on the signature count fail. -/
theorem c2_counterexample :
    newProofOfSpace sampleConnectedState sampleFarmerEnv sampleCrypto sampleProofMsg
        0 0 (.valid 0 0 []) (.ok ⟨none, none, none, none⟩) 0 =
      .error .assertionError := by
  rfl

/-- Claim C2 as amended: once the pipeline reaches the submission step, a
transport error from the pool client is absorbed (only the submission
timestamp changes); a response whose error code is 5 leaves the difficulty
and all other state unchanged beyond that timestamp; and a response with any
other error code accompanied by an error message is logged without raising
and without altering the state beyond that timestamp.  (Before the submission
step, assertion failures and missing-key lookups do raise, as the
counterexample shows.) -/
theorem c2_error_handling_amended
    (st : WorkerState) (fe : FarmerEnv) (cr : CryptoOps) (nps : ProofOfSpaceMsg)
    (ppk ri lpk fpk mh hsig : Nat)
    (hc : isPoolConnected st = true)
    (hri : ri < st.iters_limit)
    (hloop : ∀ m, ∃ s, plotSignatureLoop cr fe.private_keys fpk lpk
        nps.plot_public_key m hsig = .ok (some s))
    (hkey : (dictFind fe.pool_sks_map ppk).isSome = true) :
    (∀ e now, newProofOfSpace st fe cr nps ppk ri (.valid lpk fpk [(mh, hsig)])
        (.error e) now =
      .ok ⟨{ st with last_part_submit_time := now }, true⟩) ∧
    (∀ now, newProofOfSpace st fe cr nps ppk ri (.valid lpk fpk [(mh, hsig)])
        (.ok { new_difficulty := none, part_target_time := none,
               error_code := some 5, error_message := none }) now =
      .ok ⟨{ st with last_part_submit_time := now }, true⟩) ∧
    (∀ c msg now, c ≠ 5 →
      newProofOfSpace st fe cr nps ppk ri (.valid lpk fpk [(mh, hsig)])
          (.ok { new_difficulty := none, part_target_time := none,
                 error_code := some c, error_message := some msg }) now =
        .ok ⟨{ st with last_part_submit_time := now }, true⟩) := by
  refine ⟨?_, ?_, ?_⟩
  · intro e now
    rw [newProofOfSpace_reaches_submit st fe cr nps ppk ri lpk fpk mh hsig
      (.error e) now hc hri hloop hkey]
  · intro now
    rw [newProofOfSpace_reaches_submit st fe cr nps ppk ri lpk fpk mh hsig
      (.ok { new_difficulty := none, part_target_time := none,
             error_code := some 5, error_message := none }) now hc hri hloop hkey]
    simp [handleResponse]
  · intro c msg now hc5
    rw [newProofOfSpace_reaches_submit st fe cr nps ppk ri lpk fpk mh hsig
      (.ok { new_difficulty := none, part_target_time := none,
             error_code := some c, error_message := some msg }) now hc hri hloop hkey]
    simp [handleResponse, hc5]

/-- Claim C2 witness: the amended behavior at concrete inputs: a transport
error, an error-code-5 response, and an error-code-7 response with message. -/
theorem c2_error_handling_amended_witness :
    newProofOfSpace sampleConnectedState sampleFarmerEnv sampleCrypto sampleProofMsg
        0 0 (.valid 0 0 [(0, 0)]) (.error 9) 42 =
      .ok ⟨{ sampleConnectedState with last_part_submit_time := 42 }, true⟩ ∧
    newProofOfSpace sampleConnectedState sampleFarmerEnv sampleCrypto sampleProofMsg
        0 0 (.valid 0 0 [(0, 0)])
        (.ok { new_difficulty := none, part_target_time := none,
               error_code := some 5, error_message := none }) 42 =
      .ok ⟨{ sampleConnectedState with last_part_submit_time := 42 }, true⟩ ∧
    newProofOfSpace sampleConnectedState sampleFarmerEnv sampleCrypto sampleProofMsg
        0 0 (.valid 0 0 [(0, 0)])
        (.ok { new_difficulty := none, part_target_time := none,
               error_code := some 7, error_message := some "too many partials" }) 42 =
      .ok ⟨{ sampleConnectedState with last_part_submit_time := 42 }, true⟩ := by
  have h := c2_error_handling_amended sampleConnectedState sampleFarmerEnv sampleCrypto
    sampleProofMsg 0 0 0 0 0 0 (by decide) (by decide)
    (fun m => ⟨0, rfl⟩) (by decide)
  exact ⟨h.1 9 42, h.2.1 42, h.2.2 7 "too many partials" 42 (by decide)⟩

end ChiaOg
